import Mathlib

/-!
Verification of the FleetFlow repository.

The repository contains two prototype stores:

* the `db.py` schema prototype (tables `vehicles`, `drivers`, `trips` created
  by `src/Database/db.py`, seeded by `src/insert.py`, served by `src/app.py`),
  modelled by `Store` and the operations `add_vehicle_app` (the Flask
  `/add_vehicle` POST handler) and `insert_script` (one atomic run of
  `insert.py`: its three INSERTs commit together at the end, and an uncaught
  constraint violation aborts the run with nothing committed);

* the `Final.py` Streamlit prototype, whose `init_db` creates its own
  `vehicles` table `(id, name, plate, capacity)` with no uniqueness constraint
  on `plate`, modelled by lists of `FVehicle` with `final_add_vehicle`,
  `get_vehicles_op`, `total_capacity` and the hardcoded-credential login.

AUTOINCREMENT ids are modelled as `length + 1`: rows are never deleted, so
SQLite assigns consecutive ids starting at 1.
-/

namespace FleetFlow

/-- Schema default for `vehicles.status` in `src/Database/db.py`:
`status TEXT DEFAULT 'available'`. -/
def vehicleStatusDefault : String := "available"

/-- Schema default for `trips.status` in `src/Database/db.py`:
`status TEXT DEFAULT 'draft'`. -/
def tripStatusDefault : String := "draft"

/-- A row of the `vehicles` table of `src/Database/db.py`. -/
structure VehicleDb where
  vehicle_id : Nat
  model_name : String
  license_plate : String
  max_load_kg : Int
  status : String
deriving Repr, DecidableEq

/-- A row of the `drivers` table of `src/Database/db.py`. -/
structure DriverDb where
  driver_id : Nat
  name : String
  license_number : String
  license_expiry : String
deriving Repr, DecidableEq

/-- A row of the `trips` table of `src/Database/db.py`. -/
structure TripDb where
  trip_id : Nat
  vehicle_id : Nat
  driver_id : Nat
  cargo_weight : Int
  status : String
deriving Repr, DecidableEq

/-- The state of the `fleetflow.db` database under the `db.py` schema. -/
structure Store where
  vehicles : List VehicleDb
  drivers : List DriverDb
  trips : List TripDb
deriving Repr, DecidableEq

/-- The freshly created database: `db.py` creates the three empty tables. -/
def emptyStore : Store := { vehicles := [], drivers := [], trips := [] }

/-- The error raised by SQLite when a UNIQUE constraint is violated
(`sqlite3.IntegrityError`); the spec calls it `DuplicateKey`. -/
inductive DbError where
  | DuplicateKey
deriving Repr, DecidableEq

/-- The UNIQUE check on `vehicles.license_plate`. -/
def plateExists (s : Store) (p : String) : Bool :=
  s.vehicles.any (fun v => v.license_plate == p)

/-- The UNIQUE check on `drivers.license_number`. -/
def licenseNumberExists (s : Store) (ln : String) : Bool :=
  s.drivers.any (fun d => d.license_number == ln)

/-- `src/app.py` `add_vehicle` (POST branch):
`INSERT INTO vehicles (model_name, license_plate, max_load_kg) VALUES (?, ?, ?)`.
No `status` column is supplied, so the schema default applies.  A duplicate
plate violates the UNIQUE constraint and the INSERT raises `DuplicateKey`. -/
def add_vehicle_app (s : Store) (n p : String) (c : Int) : Except DbError Store :=
  if plateExists s p then Except.error DbError.DuplicateKey
  else Except.ok { s with
    vehicles := s.vehicles ++
      [{ vehicle_id := s.vehicles.length + 1, model_name := n,
         license_plate := p, max_load_kg := c, status := vehicleStatusDefault }] }

/-- The store as observed after the `add_vehicle` request: on a constraint
violation the exception propagates before `conn.commit()`, so nothing is
written. -/
def add_vehicle_run (s : Store) (n p : String) (c : Int) : Store :=
  match add_vehicle_app s n p c with
  | Except.ok s' => s'
  | Except.error _ => s

/-- One run of `src/insert.py` as a single atomic effect: the script inserts
vehicle `('Van-05', 'MH12AB1234', 500)`, driver `('Alex', 'DL1234567',
'2026-12-31')` and trip `(1, 1, 450, 'dispatched')`, committing only at the
end; if the vehicle or driver INSERT hits a UNIQUE violation the script dies
and the open transaction is rolled back.  `insert.py` never enables the
foreign-key pragma, so the trip INSERT itself cannot fail. -/
def insert_script (s : Store) : Except DbError Store :=
  if plateExists s "MH12AB1234" then Except.error DbError.DuplicateKey
  else if licenseNumberExists s "DL1234567" then Except.error DbError.DuplicateKey
  else Except.ok
    { vehicles := s.vehicles ++
        [{ vehicle_id := s.vehicles.length + 1, model_name := "Van-05",
           license_plate := "MH12AB1234", max_load_kg := 500,
           status := vehicleStatusDefault }],
      drivers := s.drivers ++
        [{ driver_id := s.drivers.length + 1, name := "Alex",
           license_number := "DL1234567", license_expiry := "2026-12-31" }],
      trips := s.trips ++
        [{ trip_id := s.trips.length + 1, vehicle_id := 1, driver_id := 1,
           cargo_weight := 450, status := "dispatched" }] }

/-- The state-changing operations present in the repository for the `db.py`
schema: the Flask `add_vehicle` handler and a run of the seed script.
(`db.py` itself only creates tables, and the dashboard / login routes read
only.) -/
inductive Step : Store → Store → Prop where
  | addVehicle (s : Store) (n p : String) (c : Int) (s' : Store)
      (h : add_vehicle_app s n p c = Except.ok s') : Step s s'
  | seed (s s' : Store) (h : insert_script s = Except.ok s') : Step s s'

/-- Store states reachable from the freshly created database through the
repository's operations. -/
inductive Reachable : Store → Prop where
  | init : Reachable emptyStore
  | step {s s' : Store} : Reachable s → Step s s' → Reachable s'

/-- The state after running `insert.py` on the fresh database. -/
def seedState : Store :=
  { vehicles := [{ vehicle_id := 1, model_name := "Van-05",
                   license_plate := "MH12AB1234", max_load_kg := 500,
                   status := "available" }],
    drivers := [{ driver_id := 1, name := "Alex", license_number := "DL1234567",
                  license_expiry := "2026-12-31" }],
    trips := [{ trip_id := 1, vehicle_id := 1, driver_id := 1,
                cargo_weight := 450, status := "dispatched" }] }

/-- C2's claimed invariant: every trip whose status is assigned, dispatched or
completed carries no more cargo than the capacity of the vehicle it
references. -/
def TripCapacityInv (s : Store) : Prop :=
  ∀ t ∈ s.trips,
    t.status ∈ (["assigned", "dispatched", "completed"] : List String) →
    ∀ v ∈ s.vehicles, v.vehicle_id = t.vehicle_id →
      t.cargo_weight ≤ v.max_load_kg

/-- C3's claimed invariant: no two distinct trips in {assigned, dispatched}
share a vehicle or a driver. -/
def NoDoubleBooking (s : Store) : Prop :=
  ∀ t1 ∈ s.trips, ∀ t2 ∈ s.trips,
    t1.status ∈ (["assigned", "dispatched"] : List String) →
    t2.status ∈ (["assigned", "dispatched"] : List String) →
    (t1.vehicle_id = t2.vehicle_id ∨ t1.driver_id = t2.driver_id) →
    t1 = t2

/-! ### Read-only queries of `src/app.py` (dashboard route) -/

/-- `SELECT COUNT(*) FROM vehicles`, threading the database state it reads. -/
def countVehicles (s : Store) : Nat × Store := (s.vehicles.length, s)

/-- `SELECT COUNT(*) FROM drivers`, threading the database state it reads. -/
def countDrivers (s : Store) : Nat × Store := (s.drivers.length, s)

/-- `SELECT COUNT(*) FROM vehicles WHERE status='maintenance'`, threading the
database state it reads. -/
def countMaintenance (s : Store) : Nat × Store :=
  ((s.vehicles.filter (fun v => v.status == "maintenance")).length, s)

/-- The `/dashboard` route of `src/app.py`: runs the three COUNT queries and
builds the `stats` dict passed to the template, returned together with the
database state after the reads. -/
def dashboard_op (s : Store) : List (String × Nat) × Store :=
  let (total_vehicles, s1) := countVehicles s
  let (total_drivers, s2) := countDrivers s1
  let (maintenance_alerts, s3) := countMaintenance s2
  ([("total_vehicles", total_vehicles),
    ("total_drivers", total_drivers),
    ("maintenance_alerts", maintenance_alerts)], s3)

/-- The `stats` dict the dashboard renders. -/
def dashboard_stats (s : Store) : List (String × Nat) :=
  (dashboard_op s).1

/-- Modelled from the spec: `getDashboardStats() → {totalVehicles,
totalDrivers, maintenanceAlerts, activeTrips}` — the four-field dashboard
aggregate the spec's external interface promises, with `activeTrips` the
number of trips in {assigned, dispatched}.  No code in the repository
computes an active-trip count; this definition exists only to compare the
spec's interface with `dashboard_op`. -/
def getDashboardStats_spec (s : Store) : List (String × Nat) :=
  [("total_vehicles", s.vehicles.length),
   ("total_drivers", s.drivers.length),
   ("maintenance_alerts",
     (s.vehicles.filter (fun v => v.status == "maintenance")).length),
   ("active_trips",
     (s.trips.filter
       (fun t => t.status == "assigned" || t.status == "dispatched")).length)]

/-! ### The login handler of `src/app.py` -/

/-- A row of the `users` table queried by `src/app.py` (the table itself is
never created in the repository; its rows are external state). -/
structure UserRow where
  email : String
  password : String
  role : String
deriving Repr, DecidableEq

/-- `SELECT role FROM users WHERE email=? AND password=?` followed by
`fetchone()`: the role of the first matching row, if any. -/
def users_lookup (users : List UserRow) (e p : String) : Option String :=
  (users.find? (fun u => u.email == e && u.password == p)).map (fun u => u.role)

/-- The possible HTTP responses of the `/login` route. -/
inductive HttpResponse where
  | redirectDashboard
  | dispatcherMsg
  | errorMsg
deriving Repr, DecidableEq

/-- The `/login` POST handler of `src/app.py`: if a row matches, a `manager`
is redirected to the dashboard and a `dispatcher` gets a success message, but
any other role falls through both branches and the Python function returns
`None`; if no row matches, the error message is returned. -/
def login_handler (users : List UserRow) (e p : String) : Option HttpResponse :=
  match users_lookup users e p with
  | some role =>
      if role == "manager" then some HttpResponse.redirectDashboard
      else if role == "dispatcher" then some HttpResponse.dispatcherMsg
      else none
  | none => some HttpResponse.errorMsg

/-! ### The `Final.py` Streamlit prototype -/

/-- A row of the `vehicles` table created by `init_db` in `src/Final.py`:
`(id INTEGER PRIMARY KEY AUTOINCREMENT, name TEXT, plate TEXT,
capacity INTEGER)` — note: no UNIQUE constraint on `plate`. -/
structure FVehicle where
  id : Nat
  name : String
  plate : String
  capacity : Nat
deriving Repr, DecidableEq

/-- `add_vehicle(name, plate, capacity)` in `src/Final.py`:
`INSERT INTO vehicles (name, plate, capacity) VALUES (?, ?, ?)` — the INSERT
is unconditional, there is no uniqueness constraint to violate. -/
def final_add_vehicle (vs : List FVehicle) (n p : String) (c : Nat) :
    List FVehicle :=
  vs ++ [{ id := vs.length + 1, name := n, plate := p, capacity := c }]

/-- `get_vehicles()` in `src/Final.py`: `SELECT * FROM vehicles`, returning
the rows together with the database state after the read. -/
def get_vehicles_op (vs : List FVehicle) : List FVehicle × List FVehicle :=
  (vs, vs)

/-- The dashboard page of `src/Final.py`:
`total_capacity = int(df['capacity'].sum()) if not df.empty else 0`. -/
def total_capacity (vs : List FVehicle) : Nat :=
  if vs.isEmpty then 0 else (vs.map (fun v => v.capacity)).sum

/-- Outcome of submitting the `Final.py` login form. -/
inductive LoginOutcome where
  | success
  | failure
deriving Repr, DecidableEq

/-- The credential check of the `Final.py` login form:
`email == "manager@fleetflow.com" and password == "admin123"`. -/
def login_form (email password : String) : LoginOutcome :=
  if email == "manager@fleetflow.com" && password == "admin123" then
    LoginOutcome.success
  else LoginOutcome.failure

/-- Effect of one login-form submission on `st.session_state['logged_in']`:
set to `true` on success, otherwise `st.error` is shown and the flag is left
as it was. -/
def login_step (logged_in : Bool) (email password : String) : Bool :=
  if email == "manager@fleetflow.com" && password == "admin123" then true
  else logged_in

/-- Shape of the trips table in every reachable state: the only trip-creating
code is `insert.py`, which can commit at most once (its vehicle's plate is
UNIQUE and rows are never deleted), and its trip row is fixed. -/
theorem reachable_trips_shape (s : Store) (h : Reachable s) :
    (s.trips = [] ∨
      s.trips = [{ trip_id := 1, vehicle_id := 1, driver_id := 1,
                   cargo_weight := 450, status := "dispatched" }]) ∧
    (s.trips ≠ [] → plateExists s "MH12AB1234" = true) := by
  induction h with
  | init => exact ⟨Or.inl rfl, fun hne => absurd rfl hne⟩
  | step _ hstep ih =>
    cases hstep with
    | addVehicle n p c d hadd =>
      rename_i t t' hr
      unfold add_vehicle_app at hadd
      split at hadd
      · exact absurd hadd (by simp)
      · injection hadd with h2
        subst h2
        refine ⟨ih.1, fun hne => ?_⟩
        have hne' : t.trips ≠ [] := by simpa using hne
        have hp := ih.2 hne'
        simp only [plateExists] at hp ⊢
        simp [List.any_append, hp]
    | seed d hseed =>
      rename_i t t' hr
      unfold insert_script at hseed
      split at hseed
      · exact absurd hseed (by simp)
      · split at hseed
        · exact absurd hseed (by simp)
        · rename_i hplate _
          have htriv : t.trips = [] := by
            by_contra hne
            rw [ih.2 hne] at hplate
            exact hplate rfl
          injection hseed with h2
          subst h2
          constructor
          · right
            simp [htriv]
          · intro _
            simp [plateExists, List.any_append]

/-- The state after the Flask handler registers a 100 kg-capacity vehicle on
the fresh database. -/
def smallVehicleState : Store :=
  { vehicles := [{ vehicle_id := 1, model_name := "Mini", license_plate := "P1",
                   max_load_kg := 100, status := "available" }],
    drivers := [], trips := [] }

/-- `smallVehicleState` followed by a run of `insert.py`: the seed trip
(450 kg, dispatched) references vehicle id 1, which is the 100 kg `Mini`. -/
def overloadedState : Store :=
  { vehicles := [{ vehicle_id := 1, model_name := "Mini", license_plate := "P1",
                   max_load_kg := 100, status := "available" },
                 { vehicle_id := 2, model_name := "Van-05",
                   license_plate := "MH12AB1234", max_load_kg := 500,
                   status := "available" }],
    drivers := [{ driver_id := 1, name := "Alex", license_number := "DL1234567",
                  license_expiry := "2026-12-31" }],
    trips := [{ trip_id := 1, vehicle_id := 1, driver_id := 1,
                cargo_weight := 450, status := "dispatched" }] }

/-- The state after the Flask handler registers one vehicle on the fresh
database. -/
def oneVehicleState : Store :=
  { vehicles := [{ vehicle_id := 1, model_name := "Tata Ace",
                   license_plate := "GJ01AA1111", max_load_kg := 750,
                   status := "available" }],
    drivers := [], trips := [] }

/-- Running `insert.py` on the fresh database reaches `seedState`. -/
theorem reachable_seedState : Reachable seedState :=
  Reachable.step Reachable.init (Step.seed emptyStore seedState rfl)

/-! ### Claims -/

/-- Claim C1, counterexample: in the `Final.py` prototype — whose `vehicles`
table has no uniqueness constraint on `plate` — registering a vehicle whose
plate equals that of an already-stored vehicle does not fail: the INSERT
succeeds and the store ends with two rows carrying the same plate. -/
theorem final_duplicate_plate_inserted :
    (final_add_vehicle
      [{ id := 1, name := "Van-05", plate := "MH12AB1234", capacity := 500 }]
      "Van-06" "MH12AB1234" 400).length = 2 ∧
    ((final_add_vehicle
      [{ id := 1, name := "Van-05", plate := "MH12AB1234", capacity := 500 }]
      "Van-06" "MH12AB1234" 400).filter
        (fun v => v.plate == "MH12AB1234")).length = 2 := by
  decide

/-- Claim C1, amended: under the `db.py` schema, whose `license_plate` column
is UNIQUE, the Flask add-vehicle handler fails with `DuplicateKey` on a
duplicate plate and the observed store is unchanged; the `Final.py`
prototype's `add_vehicle`, whose table has no such constraint, instead
inserts a second row with the same plate. -/
theorem add_vehicle_duplicate_plate_rejected (s : Store) (n p : String)
    (c : Int) (h : plateExists s p = true) :
    add_vehicle_app s n p c = Except.error DbError.DuplicateKey ∧
    add_vehicle_run s n p c = s := by
  unfold add_vehicle_run
  simp [add_vehicle_app, h]

/-- Witness for the amended C1 theorem at the seeded store. -/
theorem add_vehicle_duplicate_plate_rejected_witness :
    plateExists seedState "MH12AB1234" = true ∧
    (add_vehicle_app seedState "Van-06" "MH12AB1234" 400 =
        Except.error DbError.DuplicateKey ∧
      add_vehicle_run seedState "Van-06" "MH12AB1234" 400 = seedState) :=
  ⟨by decide,
   add_vehicle_duplicate_plate_rejected seedState "Van-06" "MH12AB1234" 400
     (by decide)⟩

/-- Claim C2, counterexample: registering a 100 kg-capacity vehicle (which
takes id 1) and then running the seed script — whose trip hardcodes
`vehicle_id = 1` — reaches a store whose dispatched trip carries 450 kg on a
100 kg vehicle, violating the capacity invariant. -/
theorem reachable_capacity_violation :
    Reachable overloadedState ∧ ¬ TripCapacityInv overloadedState :=
  ⟨Reachable.step
      (Reachable.step Reachable.init
        (Step.addVehicle emptyStore "Mini" "P1" 100 smallVehicleState rfl))
      (Step.seed smallVehicleState overloadedState rfl),
   by unfold TripCapacityInv; decide⟩

/-- Claim C2, amended: in every reachable store state in which each stored
vehicle with id 1 has max load capacity at least 450 kg (the seed trip's
cargo), every trip with status in {assigned, dispatched, completed} has
cargo weight at most the capacity of the vehicle it references.  Without
that restriction the claim fails: see the counterexample, where a
user-registered 100 kg vehicle occupies id 1. -/
theorem reachable_trip_capacity (s : Store) (h : Reachable s)
    (hcap : ∀ v ∈ s.vehicles, v.vehicle_id = 1 → (450 : Int) ≤ v.max_load_kg) :
    TripCapacityInv s := by
  intro t ht _ v hv hid
  rcases (reachable_trips_shape s h).1 with h0 | h1
  · rw [h0] at ht
    cases ht
  · rw [h1] at ht
    have ht' : t = { trip_id := 1, vehicle_id := 1, driver_id := 1,
                     cargo_weight := 450, status := "dispatched" } :=
      List.mem_singleton.mp ht
    subst ht'
    exact hcap v hv (by simpa using hid)

/-- Witness for the amended C2 theorem at the seeded store. -/
theorem reachable_trip_capacity_witness :
    Reachable seedState ∧ TripCapacityInv seedState :=
  ⟨reachable_seedState,
   reachable_trip_capacity seedState reachable_seedState (by decide)⟩

/-- Claim C3: in every reachable store state, for each vehicle and each
driver at most one trip referencing it has status in {assigned, dispatched};
no operation of the repository can produce a double-booked state.  (The only
trip-creating code, `insert.py`, can commit at most once, so the trips table
never holds two rows.) -/
theorem reachable_no_double_booking (s : Store) (h : Reachable s) :
    NoDoubleBooking s := by
  intro t1 ht1 t2 ht2 _ _ _
  rcases (reachable_trips_shape s h).1 with h0 | h1
  · rw [h0] at ht1
    cases ht1
  · rw [h1] at ht1 ht2
    rw [List.mem_singleton.mp ht1, List.mem_singleton.mp ht2]

/-- Witness for the C3 theorem at the seeded store. -/
theorem reachable_no_double_booking_witness :
    Reachable seedState ∧ NoDoubleBooking seedState :=
  ⟨reachable_seedState, reachable_no_double_booking seedState reachable_seedState⟩

/-- Claim C4, counterexample: at the seeded store — which holds one
dispatched trip — the dashboard's stats dict carries exactly the keys
`total_vehicles`, `total_drivers` and `maintenance_alerts`; there is no
`active_trips` field, and the dict differs from the spec's four-field
`getDashboardStats`. -/
theorem dashboard_missing_active_trips :
    (dashboard_stats seedState).map Prod.fst =
      ["total_vehicles", "total_drivers", "maintenance_alerts"] ∧
    "active_trips" ∉ (dashboard_stats seedState).map Prod.fst ∧
    dashboard_stats seedState ≠ getDashboardStats_spec seedState := by
  refine ⟨rfl, by decide, by decide⟩

/-- Claim C4, amended: for every store state the dashboard returns exactly
three fields — the vehicle count, the driver count and the count of vehicles
whose status is `maintenance` — and returns no `active_trips` field. -/
theorem dashboard_three_fields (s : Store) :
    dashboard_stats s =
      [("total_vehicles", s.vehicles.length),
       ("total_drivers", s.drivers.length),
       ("maintenance_alerts",
         (s.vehicles.filter (fun v => v.status == "maintenance")).length)] ∧
    "active_trips" ∉ (dashboard_stats s).map Prod.fst := by
  refine ⟨rfl, ?_⟩
  intro hmem
  simp [dashboard_stats, dashboard_op, countVehicles, countDrivers,
    countMaintenance] at hmem

/-- Witness for the amended C4 theorem at the seeded store. -/
theorem dashboard_three_fields_witness :
    dashboard_stats seedState =
      [("total_vehicles", seedState.vehicles.length),
       ("total_drivers", seedState.drivers.length),
       ("maintenance_alerts",
         (seedState.vehicles.filter
           (fun v => v.status == "maintenance")).length)] ∧
    "active_trips" ∉ (dashboard_stats seedState).map Prod.fst :=
  dashboard_three_fields seedState

/-- Claim C5: the dashboard's total fleet capacity equals the sum of the max
load capacities of all stored vehicles, and equals 0 when no vehicles are
stored. -/
theorem total_capacity_is_sum :
    (∀ vs : List FVehicle,
      total_capacity vs = (vs.map (fun v => v.capacity)).sum) ∧
    total_capacity [] = 0 := by
  refine ⟨fun vs => ?_, rfl⟩
  cases vs with
  | nil => rfl
  | cons a l => rfl

/-- Claim C6, counterexample: running the seed script on the fresh database
creates a trip, and that trip enters the store with status `dispatched`
(supplied explicitly by the INSERT), not the schema default `draft`. -/
theorem seed_trip_not_draft :
    insert_script emptyStore = Except.ok seedState ∧
    seedState.trips.all (fun t => t.status == "dispatched") = true ∧
    seedState.trips.any (fun t => t.status == tripStatusDefault) = false :=
  ⟨rfl, by decide, by decide⟩

/-- Claim C6, amended: the schema defaults a trip's status to `draft`, but
the repository's only trip-creating operation (`insert.py`) supplies the
status explicitly, so in every reachable state every stored trip has status
`dispatched` — never the default `draft`. -/
theorem reachable_trips_dispatched (s : Store) (h : Reachable s) :
    ∀ t ∈ s.trips, t.status = "dispatched" ∧ t.status ≠ tripStatusDefault := by
  intro t ht
  rcases (reachable_trips_shape s h).1 with h0 | h1
  · rw [h0] at ht
    cases ht
  · rw [h1] at ht
    rw [List.mem_singleton.mp ht]
    exact ⟨rfl, by decide⟩

/-- Witness for the amended C6 theorem at the seeded store. -/
theorem reachable_trips_dispatched_witness :
    Reachable seedState ∧
    ∀ t ∈ seedState.trips,
      t.status = "dispatched" ∧ t.status ≠ tripStatusDefault :=
  ⟨reachable_seedState, reachable_trips_dispatched seedState reachable_seedState⟩

/-- Claim C7: the `Final.py` login check succeeds exactly when the submitted
email is `manager@fleetflow.com` and the password is `admin123`; any other
pair is rejected and leaves the session logged out. -/
theorem login_exact_credentials (email password : String) :
    (login_form email password = LoginOutcome.success ↔
      email = "manager@fleetflow.com" ∧ password = "admin123") ∧
    (login_form email password = LoginOutcome.failure →
      login_step false email password = false) := by
  unfold login_form login_step
  split
  · rename_i hc
    simp only [Bool.and_eq_true, beq_iff_eq] at hc
    exact ⟨by simp [hc.1, hc.2], fun hf => nomatch hf⟩
  · rename_i hc
    refine ⟨⟨fun hs => (nomatch hs), fun hep => ?_⟩, fun _ => rfl⟩
    exact absurd (by simp [Bool.and_eq_true, beq_iff_eq, hep.1, hep.2]) hc

/-- Witness for the C7 theorem at a rejected credential pair. -/
theorem login_exact_credentials_witness :
    (login_form "x@y.z" "pw" = LoginOutcome.success ↔
      "x@y.z" = "manager@fleetflow.com" ∧ "pw" = "admin123") ∧
    (login_form "x@y.z" "pw" = LoginOutcome.failure →
      login_step false "x@y.z" "pw" = false) :=
  login_exact_credentials "x@y.z" "pw"

/-- Claim C8: the read-only queries — fetching the vehicle list and
computing the dashboard statistics — return the store they were given
unchanged. -/
theorem queries_leave_store_unchanged :
    (∀ s : Store, (dashboard_op s).2 = s) ∧
    (∀ vs : List FVehicle, (get_vehicles_op vs).2 = vs) :=
  ⟨fun _ => rfl, fun _ => rfl⟩

/-- Claim C9: the Flask login handler produces no response when the
submitted credentials match a users row whose role is neither `manager` nor
`dispatcher`: with an `admin` row, both role branches are skipped and the
handler returns `None`. -/
theorem login_handler_returns_none :
    login_handler
      [{ email := "root@fleetflow.com", password := "pw", role := "admin" }]
      "root@fleetflow.com" "pw" = none := by
  decide

/-- Claim C10: every vehicle created through the Flask add-vehicle handler —
whose INSERT supplies no status column — enters the store with the schema
default status `available`. -/
theorem add_vehicle_status_available (s : Store) (n p : String) (c : Int)
    (s' : Store) (h : add_vehicle_app s n p c = Except.ok s') :
    ∃ v : VehicleDb, s'.vehicles = s.vehicles ++ [v] ∧ v.status = "available" := by
  unfold add_vehicle_app at h
  split at h
  · exact absurd h (by simp)
  · injection h with h2
    subst h2
    exact ⟨_, rfl, rfl⟩

/-- Witness for the C10 theorem on the fresh database. -/
theorem add_vehicle_status_available_witness :
    add_vehicle_app emptyStore "Tata Ace" "GJ01AA1111" 750 =
      Except.ok oneVehicleState ∧
    ∃ v : VehicleDb, oneVehicleState.vehicles = emptyStore.vehicles ++ [v] ∧
      v.status = "available" :=
  ⟨rfl,
   add_vehicle_status_available emptyStore "Tata Ace" "GJ01AA1111" 750
     oneVehicleState rfl⟩

end FleetFlow
